/-
Verification of the Lumen_RPI LED-effect core.

Shallow embedding of `moonraker/components/lumen_lib/effects.py`,
`state.py`, `states/bored.py` and `states/sleep.py`.

Modelling conventions:
* Python floats are modelled as exact rationals (`ℚ`); the one transcendental
  operation (`math.sin` in the pulse effect) is modelled over `ℝ` with
  `Real.sin`.  IEEE rounding is out of scope.
* Python `a % b` on floats (for `b > 0`) is `pymod`; `int(x)` is `pyint`
  (truncation toward zero).
* Fallible Python code (attribute errors, type errors, key errors) is
  modelled in `Except Unit`.
* The `random` module is external; it is modelled by an entropy stream
  `ℕ → ℕ` together with a cursor, and `random.seed` by an arbitrary
  function from seeds to streams, universally quantified in theorems.
-/
import Mathlib

/-- Python float `%` for the cases used here: `a - b * ⌊a / b⌋`.
(The source only ever uses a positive modulus; `b = 0` would raise
`ZeroDivisionError` in Python and is never exercised by the theorems.) -/
def pymod (a b : ℚ) : ℚ := a - b * Rat.floor (a / b)

/-- Python `int(q)`: truncation toward zero. -/
def pyint (q : ℚ) : ℤ := if 0 ≤ q then Rat.floor q else -Rat.floor (-q)

/-- `colors.RGB`: a triple of channel intensities (source: `lumen_lib/colors.py`,
`RGB = Tuple[float, float, float]`). -/
def RGB : Type := ℚ × ℚ × ℚ

instance : DecidableEq RGB := by unfold RGB; infer_instance

/-- `effects.EffectState` with the dataclass defaults
(source: `effects.py` lines 22-44). -/
structure EffectState where
  effect : String := "off"
  color : RGB := (0, 0, 0)
  base_color : RGB := (0, 0, 0)
  start_time : ℚ := 0
  last_update : ℚ := 0
  speed : ℚ := 1
  min_brightness : ℚ := 0.2
  max_brightness : ℚ := 1
  min_sparkle : ℕ := 1
  max_sparkle : ℕ := 6
  start_color : RGB := (0.5, 0.5, 0.5)
  end_color : RGB := (0, 1, 0)
  gradient_curve : ℚ := 1
  temp_source : String := "extruder"
  direction : String := "standard"
deriving DecidableEq

/-! ### Pulse effect (`effects.py` lines 47-67) -/

/-- The brightness computed by `effect_pulse` (source lines 62-64):
`phase = (sin(elapsed * speed * 2 * pi) + 1) / 2`,
`brightness = min_brightness + phase * (max_brightness - min_brightness)`. -/
noncomputable def pulseBrightness (s : EffectState) (now : ℚ) : ℝ :=
  let elapsed : ℝ := (now : ℝ) - (s.start_time : ℝ)
  let phase : ℝ := (Real.sin (elapsed * (s.speed : ℝ) * 2 * Real.pi) + 1) / 2
  (s.min_brightness : ℝ) + phase * ((s.max_brightness : ℝ) - (s.min_brightness : ℝ))

/-- `effect_pulse` (source lines 47-67): base color scaled per channel. -/
noncomputable def effect_pulse (s : EffectState) (now : ℚ) : ℝ × ℝ × ℝ :=
  ((s.base_color.1 : ℝ) * pulseBrightness s now,
   (s.base_color.2.1 : ℝ) * pulseBrightness s now,
   (s.base_color.2.2 : ℝ) * pulseBrightness s now)

/-! ### Heartbeat effect (`effects.py` lines 14-19 and 70-114) -/

def HEARTBEAT_FIRST_PULSE_DURATION : ℚ := 0.15
def HEARTBEAT_DIP_DURATION : ℚ := 0.05
def HEARTBEAT_SECOND_PULSE_DURATION : ℚ := 0.05
def HEARTBEAT_FADE_DURATION : ℚ := 0.10
def HEARTBEAT_SECOND_PULSE_INTENSITY : ℚ := 0.5

/-- The brightness computed by `effect_heartbeat` (source lines 89-111),
translated branch by branch.  Note that the third branch is literally
`min_brightness + HEARTBEAT_SECOND_PULSE_INTENSITY + t * (max - min) * HEARTBEAT_SECOND_PULSE_INTENSITY`
(source line 104), i.e. the raw constant `0.5` is added, not
`0.5 * (max - min)`. -/
def heartbeatBrightness (s : EffectState) (now : ℚ) : ℚ :=
  let elapsed := now - s.start_time
  let cycle_time := 1 / s.speed
  let phase := pymod elapsed cycle_time / cycle_time
  if phase < HEARTBEAT_FIRST_PULSE_DURATION then
    let t := phase / HEARTBEAT_FIRST_PULSE_DURATION
    s.min_brightness + t * (s.max_brightness - s.min_brightness)
  else if phase < HEARTBEAT_FIRST_PULSE_DURATION + HEARTBEAT_DIP_DURATION then
    let t := (phase - HEARTBEAT_FIRST_PULSE_DURATION) / HEARTBEAT_DIP_DURATION
    s.max_brightness - t * (s.max_brightness - s.min_brightness) * HEARTBEAT_SECOND_PULSE_INTENSITY
  else if phase < HEARTBEAT_FIRST_PULSE_DURATION + HEARTBEAT_DIP_DURATION +
      HEARTBEAT_SECOND_PULSE_DURATION then
    let t := (phase - HEARTBEAT_FIRST_PULSE_DURATION - HEARTBEAT_DIP_DURATION) /
      HEARTBEAT_SECOND_PULSE_DURATION
    s.min_brightness + HEARTBEAT_SECOND_PULSE_INTENSITY +
      t * (s.max_brightness - s.min_brightness) * HEARTBEAT_SECOND_PULSE_INTENSITY
  else if phase < HEARTBEAT_FIRST_PULSE_DURATION + HEARTBEAT_DIP_DURATION +
      HEARTBEAT_SECOND_PULSE_DURATION + HEARTBEAT_FADE_DURATION then
    let t := (phase - HEARTBEAT_FIRST_PULSE_DURATION - HEARTBEAT_DIP_DURATION -
      HEARTBEAT_SECOND_PULSE_DURATION) / HEARTBEAT_FADE_DURATION
    s.max_brightness - t * (s.max_brightness - s.min_brightness)
  else
    s.min_brightness

/-- `effect_heartbeat` (source lines 70-114). -/
def effect_heartbeat (s : EffectState) (now : ℚ) : RGB :=
  (s.base_color.1 * heartbeatBrightness s now,
   s.base_color.2.1 * heartbeatBrightness s now,
   s.base_color.2.2 * heartbeatBrightness s now)

/-- The dataclass-default effect state with a white base color, used as a
concrete evaluation point (`speed = 1`, `min_brightness = 0.2`,
`max_brightness = 1`, `start_time = 0`). -/
def hbDefault : EffectState := { base_color := (1, 1, 1) }

/-! ### Disco effect (`effects.py` lines 117-181)

The Python `random` module is external.  It is modelled by an entropy
stream `ℕ → ℕ` read at an advancing cursor:
* `random.randint(a, b)` draws `a + stream k % (b + 1 - a)` (for `a ≤ b`
  this lies in `[a, b]`, which is the documented contract);
* `random.random()` draws `stream k % 1000000 / 1000000 ∈ [0, 1)`;
* `random.shuffle` is modelled by repeatedly selecting a remaining element
  at an entropy-chosen index (a permutation, which is the documented
  contract);
* `random.seed(n)` installs a stream chosen by an arbitrary function
  `seedGen : ℤ → ℕ → ℕ`, universally quantified in the theorems. -/

/-- Model of `random.shuffle`: select the element at an entropy-chosen
index, then recurse on the remainder.  Returns the shuffled list and the
advanced cursor. -/
def shuffleGo (stream : ℕ → ℕ) (k : ℕ) (l : List ℕ) : List ℕ × ℕ :=
  if hl : l = [] then ([], k)
  else
    let j := stream k % l.length
    have hj : j < l.length := Nat.mod_lt _ (List.length_pos.mpr hl)
    let y := l.get ⟨j, hj⟩
    let rest := shuffleGo stream (k + 1) (l.eraseIdx j)
    (y :: rest.1, rest.2)
termination_by l.length
decreasing_by
  have h2 : stream k % l.length < l.length :=
    Nat.mod_lt _ (List.length_pos.mpr hl)
  have := List.length_eraseIdx_add_one h2
  omega

/-- The HSV→RGB conversion inside the disco loop (source lines 160-176):
saturation 1, value `c`, hue `hue ∈ [0, 1)`. -/
def hueToRGB (hue c : ℚ) : RGB :=
  let h := hue * 6
  let x := c * (1 - |pymod h 2 - 1|)
  if h < 1 then (c, x, 0)
  else if h < 2 then (x, c, 0)
  else if h < 3 then (0, c, x)
  else if h < 4 then (0, x, c)
  else if h < 5 then (x, 0, c)
  else (c, 0, x)

/-- The per-LED loop of `effect_disco` (source lines 157-179): a lit LED
consumes one `random.random()` draw for its hue; an unlit LED appends the
explicit unlit marker `none`. -/
def buildColors (stream : ℕ → ℕ) (c : ℚ) (lit : List ℕ) :
    List ℕ → ℕ → List (Option RGB)
  | [], _ => []
  | i :: is, k =>
    if i ∈ lit then
      some (hueToRGB ((stream k % 1000000 : ℕ) / (1000000 : ℚ)) c) ::
        buildColors stream c lit is (k + 1)
    else
      none :: buildColors stream c lit is k

/-- `effect_disco` (source lines 117-181).  `seedGen` models
`random.seed(int(now * 1000000))` installing a fresh generator state. -/
def effect_disco (seedGen : ℤ → ℕ → ℕ) (s : EffectState) (now : ℚ)
    (led_count : ℕ) : List (Option RGB) × Bool :=
  let time_since_update := now - s.last_update
  let interval := 1 / s.speed
  if time_since_update < interval then ([], false)
  else
    let stream := seedGen (pyint (now * 1000000))
    let min_lit := min s.min_sparkle led_count
    let max_lit := min s.max_sparkle led_count
    let num_lit := min_lit + stream 0 % (max_lit + 1 - min_lit)
    let shuffled := (shuffleGo stream 1 (List.range led_count)).1
    let lit_indices := shuffled.take num_lit
    (buildColors stream s.max_brightness lit_indices (List.range led_count)
       (shuffleGo stream 1 (List.range led_count)).2, true)

/-- The effect of `effect_disco` on its `EffectState` argument: the source
function (lines 117-181) performs no assignment to any attribute of
`state`, so the post-state is the input state unchanged. -/
def effect_disco_state (s : EffectState) (_now : ℚ) (_led_count : ℕ) :
    EffectState := s

/-! ### Gradient fill (`effects.py` lines 184-270) -/

/-- `_lerp_color` (source lines 184-189), over `ℝ` because the fill effect
raises the gradient position to a float power. -/
def lerp_color (c1 c2 : ℝ × ℝ × ℝ) (t : ℝ) : ℝ × ℝ × ℝ :=
  (c1.1 + (c2.1 - c1.1) * t,
   c1.2.1 + (c2.2.1 - c1.2.1) * t,
   c1.2.2 + (c2.2.2 - c1.2.2) * t)

/-- The color buffer computed by `effect_fill` before the direction reversal
(source lines 222-265).  `pow(gradient_t, gradient_curve)` is modelled by
`Real.rpow` (note `pow(0.0, 0.0) = 1.0` in Python, matching `rpow`). -/
noncomputable def fillColors (s : EffectState) (fill_percent : ℚ)
    (led_count : ℕ) : List (Option (ℝ × ℝ × ℝ)) :=
  let fp := max 0 (min 1 fill_percent)
  let lit_count : ℚ := fp * led_count
  let startC : ℝ × ℝ × ℝ :=
    ((s.start_color.1 : ℝ), (s.start_color.2.1 : ℝ), (s.start_color.2.2 : ℝ))
  let endC : ℝ × ℝ × ℝ :=
    ((s.end_color.1 : ℝ), (s.end_color.2.1 : ℝ), (s.end_color.2.2 : ℝ))
  (List.range led_count).map fun i =>
    let led_pos : ℚ := i + 1
    let gradient_t : ℚ := if led_count ≤ 1 then 1 else i / (led_count - 1)
    let curved_t : ℝ := (gradient_t : ℝ) ^ (s.gradient_curve : ℝ)
    if led_pos ≤ lit_count then
      some (lerp_color startC endC curved_t)
    else if led_pos - 1 < lit_count then
      let partial_ : ℚ := lit_count - (led_pos - 1)
      let base := lerp_color startC endC curved_t
      some (base.1 * (partial_ : ℝ), base.2.1 * (partial_ : ℝ),
            base.2.2 * (partial_ : ℝ))
    else
      none

/-- `effect_fill` (source lines 192-270).  `hasattr(state, 'direction')` is
always true for the dataclass, so the final step reduces to reversing the
buffer when `direction == 'reverse'`. -/
noncomputable def effect_fill (s : EffectState) (fill_percent : ℚ)
    (led_count : ℕ) : List (Option (ℝ × ℝ × ℝ)) :=
  let colors := fillColors s fill_percent led_count
  if s.direction = "reverse" then colors.reverse else colors

/-! ### Printer state (`state.py` lines 24-114)

Telemetry values arriving from Moonraker are dynamically typed; they are
modelled by `Val`.  Operations that can raise in Python (`in` on a
non-container, subscripting, `.get` on a non-dict, `len` on a number, ...)
are modelled in `Except Unit`, `.error ()` standing for a raised
exception. -/

inductive Val where
  | null
  | num (q : ℚ)
  | str (s : String)
  | list (l : List Val)
  | dict (d : List (String × Val))

/-- A Moonraker status update: a dictionary of named telemetry groups. -/
def Status : Type := List (String × Val)

/-- Substring test on character lists (Python `needle in haystack` for
strings). -/
def hasSubstr (needle : List Char) : List Char → Bool
  | [] => needle.isEmpty
  | c :: rest => needle.isPrefixOf (c :: rest) || hasSubstr needle rest

/-- Python `key in v`: key membership for dicts, substring test for
strings, element equality for lists; `TypeError` for numbers and `None`. -/
def containsV (v : Val) (key : String) : Except Unit Bool :=
  match v with
  | .dict d => .ok (d.lookup key).isSome
  | .str s => .ok (hasSubstr key.toList s.toList)
  | .list l => .ok (l.any fun e => match e with | .str t => t == key | _ => false)
  | .num _ => .error ()
  | .null => .error ()

/-- Python `v[key]` for a string key: dict lookup (`KeyError` when absent);
`TypeError` on every other value (string and list reject string indices). -/
def subscriptV (v : Val) (key : String) : Except Unit Val :=
  match v with
  | .dict d => match d.lookup key with
    | some x => .ok x
    | none => .error ()
  | _ => .error ()

/-- Python `v.get(key, default)`: only dicts have `.get`
(`AttributeError` otherwise). -/
def getV (v : Val) (key : String) (dflt : Val) : Except Unit Val :=
  match v with
  | .dict d => .ok ((d.lookup key).getD dflt)
  | _ => .error ()

/-- Python `len(v)`: length for strings, lists and dicts; `TypeError` for
numbers and `None`. -/
def lenV (v : Val) : Except Unit ℕ :=
  match v with
  | .str s => .ok s.length
  | .list l => .ok l.length
  | .dict d => .ok d.length
  | _ => .error ()

/-- Python `v[i]` for an integer index, as used on `toolhead.position`:
element of a list (`IndexError` out of range).  Indexing a string yields a
character and indexing a dict by an integer raises `KeyError`; both would
feed a non-number into a numeric field, which the typed model folds into
the error case (no theorem exercises it). -/
def indexV (v : Val) (i : ℕ) : Except Unit Val :=
  match v with
  | .list l => if h : i < l.length then .ok (l.get ⟨i, h⟩) else .error ()
  | _ => .error ()

/-- Python `value or 0.0` followed by assignment to a float field: a falsy
value (`None`, `0`, `""`, `[]`, `{}`) becomes `0.0`, a truthy number stays
itself.  A truthy non-number would be stored as-is by Python, which the
typed model folds into the error case (no theorem exercises it). -/
def orZero (v : Val) : Except Unit ℚ :=
  match v with
  | .null => .ok 0
  | .num q => .ok q
  | .str s => if s = "" then .ok 0 else .error ()
  | .list l => if l.isEmpty then .ok 0 else .error ()
  | .dict d => if d.isEmpty then .ok 0 else .error ()

/-- Assignment of a telemetry value to a string field.  Python stores any
value as-is; the typed model requires a string (no theorem exercises the
mismatch). -/
def asStrE (v : Val) : Except Unit String :=
  match v with
  | .str s => .ok s
  | _ => .error ()

/-- `state.PrinterState` with the dataclass defaults
(source: `state.py` lines 24-41). -/
structure PrinterState where
  klipper_state : String := "startup"
  print_state : String := "standby"
  progress : ℚ := 0
  filename : String := ""
  bed_temp : ℚ := 0
  bed_target : ℚ := 0
  extruder_temp : ℚ := 0
  extruder_target : ℚ := 0
  position_x : ℚ := 0
  position_y : ℚ := 0
  position_z : ℚ := 0
  idle_state : String := "Ready"
deriving DecidableEq

namespace PrinterState

/-- The `webhooks` group of `update_from_status` (source lines 45-48). -/
def applyWebhooks (s : PrinterState) (st : Status) : Except Unit PrinterState :=
  match st.lookup "webhooks" with
  | none => .ok s
  | some wh =>
    (containsV wh "state").bind fun b =>
      if b then
        (subscriptV wh "state").bind fun v =>
          (asStrE v).map fun x => { s with klipper_state := x }
      else .ok s

/-- The `print_stats` group (source lines 50-55). -/
def applyPrintStats (s : PrinterState) (st : Status) : Except Unit PrinterState :=
  match st.lookup "print_stats" with
  | none => .ok s
  | some ps =>
    (containsV ps "state").bind fun b1 =>
      (if b1 then
        (subscriptV ps "state").bind fun v =>
          (asStrE v).map fun x => { s with print_state := x }
      else .ok s).bind fun s1 =>
      (containsV ps "filename").bind fun b2 =>
        if b2 then
          (getV ps "filename" (Val.str "")).bind fun v =>
            (asStrE v).map fun x => { s1 with filename := x }
        else .ok s1

/-- The `display_status` group (source lines 57-60). -/
def applyDisplayStatus (s : PrinterState) (st : Status) :
    Except Unit PrinterState :=
  match st.lookup "display_status" with
  | none => .ok s
  | some ds =>
    (containsV ds "progress").bind fun b =>
      if b then
        (getV ds "progress" (Val.num 0)).bind fun v =>
          (orZero v).map fun q => { s with progress := q }
      else .ok s

/-- The `heater_bed` group (source lines 62-67). -/
def applyHeaterBed (s : PrinterState) (st : Status) : Except Unit PrinterState :=
  match st.lookup "heater_bed" with
  | none => .ok s
  | some hb =>
    (containsV hb "temperature").bind fun b1 =>
      (if b1 then
        (getV hb "temperature" (Val.num 0)).bind fun v =>
          (orZero v).map fun q => { s with bed_temp := q }
      else .ok s).bind fun s1 =>
      (containsV hb "target").bind fun b2 =>
        if b2 then
          (getV hb "target" (Val.num 0)).bind fun v =>
            (orZero v).map fun q => { s1 with bed_target := q }
        else .ok s1

/-- The `extruder` group (source lines 69-74). -/
def applyExtruder (s : PrinterState) (st : Status) : Except Unit PrinterState :=
  match st.lookup "extruder" with
  | none => .ok s
  | some ex =>
    (containsV ex "temperature").bind fun b1 =>
      (if b1 then
        (getV ex "temperature" (Val.num 0)).bind fun v =>
          (orZero v).map fun q => { s with extruder_temp := q }
      else .ok s).bind fun s1 =>
      (containsV ex "target").bind fun b2 =>
        if b2 then
          (getV ex "target" (Val.num 0)).bind fun v =>
            (orZero v).map fun q => { s1 with extruder_target := q }
        else .ok s1

/-- The `toolhead` group (source lines 76-83). -/
def applyToolhead (s : PrinterState) (st : Status) : Except Unit PrinterState :=
  match st.lookup "toolhead" with
  | none => .ok s
  | some th =>
    (containsV th "position").bind fun b =>
      if b then
        (subscriptV th "position").bind fun pos =>
          (lenV pos).bind fun n =>
            if 3 ≤ n then
              (indexV pos 0).bind fun v0 => (orZero v0).bind fun x =>
              (indexV pos 1).bind fun v1 => (orZero v1).bind fun y =>
              (indexV pos 2).bind fun v2 => (orZero v2).map fun z =>
                { s with position_x := x, position_y := y, position_z := z }
            else .ok s
      else .ok s

/-- The `idle_timeout` group (source lines 85-88). -/
def applyIdleTimeout (s : PrinterState) (st : Status) :
    Except Unit PrinterState :=
  match st.lookup "idle_timeout" with
  | none => .ok s
  | some it =>
    (containsV it "state").bind fun b =>
      if b then
        (subscriptV it "state").bind fun v =>
          (asStrE v).map fun x => { s with idle_state := x }
      else .ok s

/-- `PrinterState.update_from_status` (source lines 43-88): the seven
recognized groups are processed in source order; an exception raised in
one group aborts the remainder (in Python the fields already written stay
written; the model only records that an exception escaped). -/
def update_from_status (s : PrinterState) (st : Status) :
    Except Unit PrinterState :=
  (applyWebhooks s st).bind fun s1 =>
  (applyPrintStats s1 st).bind fun s2 =>
  (applyDisplayStatus s2 st).bind fun s3 =>
  (applyHeaterBed s3 st).bind fun s4 =>
  (applyExtruder s4 st).bind fun s5 =>
  (applyToolhead s5 st).bind fun s6 =>
  applyIdleTimeout s6 st

/-- `PrinterState.is_heating` (source lines 90-93). -/
def is_heating (s : PrinterState) : Bool :=
  decide (0 < s.bed_target) || decide (0 < s.extruder_target)

/-- `PrinterState.is_hot` (source lines 95-98). -/
def is_hot (s : PrinterState) : Bool :=
  decide (40 < s.bed_temp) || decide (40 < s.extruder_temp)

/-- `PrinterState.at_temp` (source lines 100-106); the Python default
tolerance is `2.0`. -/
def at_temp (s : PrinterState) (tolerance : ℚ) : Bool :=
  (decide (s.bed_target = 0) || decide (|s.bed_temp - s.bed_target| ≤ tolerance)) &&
  (decide (s.extruder_target = 0) ||
    decide (|s.extruder_temp - s.extruder_target| ≤ tolerance))

/-- `PrinterState.clearly_heating` (source lines 108-114); the Python
default threshold is `10.0`. -/
def clearly_heating (s : PrinterState) (threshold : ℚ) : Bool :=
  (decide (0 < s.bed_target) && decide (threshold < s.bed_target - s.bed_temp)) ||
  (decide (0 < s.extruder_target) &&
    decide (threshold < s.extruder_target - s.extruder_temp))

end PrinterState

/-! ### State detector (`state.py` lines 13-21 and 120-246) -/

/-- `state.PrinterEvent` (source lines 13-21). -/
inductive PrinterEvent where
  | idle
  | heating
  | printing
  | cooldown
  | error
  | bored
  | sleep
deriving DecidableEq

/-- A registered listener callback over an abstract world `W`: invoking it
transforms the world and reports whether it raised.  (`state.py` line 117,
`EventCallback = Callable[[PrinterEvent], None]`; the raised flag models an
escaping exception, whose side effects up to the raise persist.) -/
def Callback (W : Type) : Type := PrinterEvent → W → W × Bool

/-- `state.StateDetector` fields (source lines 125-140).  The listener list
is passed separately to the operations that notify, so that the record
stays independent of the world type.  Timestamps are nullable; Python
truth-tests them (`if self._idle_start:`), so `some 0` is also falsy. -/
structure StateDetector where
  temp_floor : ℚ := 25
  bored_timeout : ℚ := 300
  sleep_timeout : ℚ := 600
  current_event : PrinterEvent := .idle
  previous_event : PrinterEvent := .idle
  idle_start : Option ℚ := none
  bored_start : Option ℚ := none
deriving DecidableEq

/-- Python truthiness of an `Optional[float]`: `None` and `0.0` are falsy. -/
def truthyOpt (o : Option ℚ) : Bool :=
  match o with
  | none => false
  | some q => decide (q ≠ 0)

namespace StateDetector

/-- `StateDetector._detect_event` (source lines 160-203).  Besides the
detected event it returns the post-state: the method writes
`self._bored_start = now` when the bored timeout first elapses and touches
no other field. -/
def detect_event (d : StateDetector) (s : PrinterState) (now : ℚ) :
    PrinterEvent × StateDetector :=
  if s.klipper_state = "shutdown" ∨ s.klipper_state = "error" then (.error, d)
  else if s.print_state = "printing" then
    if d.current_event = .printing then
      if s.clearly_heating 10 then (.heating, d) else (.printing, d)
    else if s.is_heating && !(s.at_temp 2) then (.heating, d)
    else (.printing, d)
  else if s.is_heating then (.heating, d)
  else if s.is_hot && !s.is_heating then (.cooldown, d)
  else if truthyOpt d.idle_start then
    let idle_seconds := now - d.idle_start.getD 0
    if truthyOpt d.bored_start ∧ d.sleep_timeout ≤ now - d.bored_start.getD 0 then
      (.sleep, d)
    else if d.bored_timeout ≤ idle_seconds then
      if !truthyOpt d.bored_start then (.bored, { d with bored_start := some now })
      else (.bored, d)
    else (.idle, d)
  else (.idle, d)

/-- The listener loop of `_transition` (source lines 221-226): every
callback is invoked in order; a raise is caught and ignored
(`except Exception: pass`), so the world effects of every callback are
applied and no exception escapes. -/
def notifyListeners {W : Type} (listeners : List (Callback W))
    (e : PrinterEvent) (w : W) : W :=
  listeners.foldl (fun w cb => (cb e w).1) w

/-- `StateDetector._transition` (source lines 205-226): record the
previous/current events, reset timers by the entered event, then notify
every listener. -/
def transition {W : Type} (d : StateDetector) (new_event : PrinterEvent)
    (now : ℚ) (listeners : List (Callback W)) (w : W) : StateDetector × W :=
  let d1 := { d with previous_event := d.current_event,
                     current_event := new_event }
  let d2 :=
    if new_event = .heating ∨ new_event = .printing ∨ new_event = .cooldown ∨
        new_event = .error then
      { d1 with idle_start := none, bored_start := none }
    else if new_event = .idle then
      { d1 with idle_start := some now, bored_start := none }
    else if new_event = .bored then
      { d1 with bored_start := some now }
    else d1
  (d2, notifyListeners listeners new_event w)

/-- `StateDetector.update` (source lines 146-158): detect, transition only
on change, and return the new event exactly when it changed (`now` is
`time.time()` in the source, passed explicitly here). -/
def update {W : Type} (d : StateDetector) (s : PrinterState) (now : ℚ)
    (listeners : List (Callback W)) (w : W) :
    StateDetector × W × Option PrinterEvent :=
  let nd := detect_event d s now
  if nd.1 ≠ nd.2.current_event then
    let tw := transition nd.2 nd.1 now listeners w
    (tw.1, tw.2, some nd.1)
  else (nd.2, w, none)

end StateDetector

/-! ### Pluggable detectors (`states/bored.py`, `states/sleep.py`)

Both `detect` methods take the raw status and an optional context dict.
The guard lines 41-55 are textually identical in the two files and are
embedded once. -/

/-- Python truthiness of the optional context dict (`if not context:`):
`None` and the empty dict are falsy. -/
def truthyCtx (context : Option Status) : Bool :=
  match context with
  | none => false
  | some [] => false
  | some (_ :: _) => true

/-- Python `d.get(key, default)` on a value that is statically a dict
(the `status` and `context` parameters). -/
def cget (d : Status) (key : String) (dflt : Val) : Val :=
  (d.lookup key).getD dflt

/-- Python `v > 0` on a telemetry value: defined for numbers, `TypeError`
otherwise. -/
def gtZero (v : Val) : Except Unit Bool :=
  match v with
  | .num q => .ok (decide (0 < q))
  | _ => .error ()

/-- Python `v.lower()` on a telemetry value: defined for strings,
`AttributeError` otherwise. -/
def lowerV (v : Val) : Except Unit String :=
  match v with
  | .str s => .ok s.toLower
  | _ => .error ()

/-- Python `v == "lit"`: equality between a telemetry value and a string
literal never raises and holds only for that string. -/
def eqStr (v : Val) (lit : String) : Bool :=
  match v with
  | .str s => s == lit
  | _ => false

/-- Python `a - b` on telemetry values: defined for numbers, `TypeError`
otherwise. -/
def subNum (a b : Val) : Except Unit ℚ :=
  match a, b with
  | .num x, .num y => .ok (x - y)
  | _, _ => .error ()

/-- Python `q >= v` against a telemetry value: defined for numbers,
`TypeError` otherwise. -/
def geNum (q : ℚ) (v : Val) : Except Unit Bool :=
  match v with
  | .num y => .ok (decide (y ≤ q))
  | _ => .error ()

/-- The heater clause of the shared guard (source line 45 of both files):
`extruder.get('target', 0) > 0 or heater_bed.get('target', 0) > 0`, with
Python's left-to-right short-circuit evaluation. -/
def heaterCheck (status : Status) : Except Unit Bool :=
  (getV (cget status "extruder" (Val.dict [])) "target" (Val.num 0)).bind fun et =>
  (gtZero et).bind fun b1 =>
  if b1 then .ok true else
    (getV (cget status "heater_bed" (Val.dict [])) "target" (Val.num 0)).bind
      fun bt => gtZero bt

/-- The shared guard of `BoredDetector.detect` and `SleepDetector.detect`
(identical source lines 41-55 of `states/bored.py` and of
`states/sleep.py`): true when a heater target is set, the print sub-state
is `printing`/`paused`, or the idle-timeout sub-state is `error`. -/
def stateGuard (status : Status) : Except Unit Bool :=
  (heaterCheck status).bind fun heaterOn =>
  if heaterOn then .ok true else
  (getV (cget status "print_stats" (Val.dict [])) "state" (Val.str "")).bind
    fun ps =>
  (lowerV ps).bind fun psL =>
  if psL = "printing" ∨ psL = "paused" then .ok true else
  (getV (cget status "idle_timeout" (Val.dict [])) "state" (Val.str "")).bind
    fun iv =>
  (lowerV iv).map fun ivL => ivL = "error"

/-- `BoredDetector.detect` (source `states/bored.py` lines 31-74). -/
def BoredDetector_detect (status : Status) (context : Option Status) :
    Except Unit Bool :=
  if !truthyCtx context then .ok false
  else
    (stateGuard status).bind fun g =>
    if g then .ok false else
    let ctx := context.getD []
    let bored_timeout := cget ctx "bored_timeout" (Val.num 60)
    let last_state := cget ctx "last_state" (Val.str "")
    let state_enter_time := cget ctx "state_enter_time" (Val.num 0)
    let current_time := cget ctx "current_time" (Val.num 0)
    if eqStr last_state "bored" then .ok true
    else if eqStr last_state "idle" then
      (subNum current_time state_enter_time).bind fun idle_duration =>
        geNum idle_duration bored_timeout
    else .ok false

/-- `SleepDetector.detect` (source `states/sleep.py` lines 31-79). -/
def SleepDetector_detect (status : Status) (context : Option Status) :
    Except Unit Bool :=
  if !truthyCtx context then .ok false
  else
    (stateGuard status).bind fun g =>
    if g then .ok false else
    let ctx := context.getD []
    let sleep_timeout := cget ctx "sleep_timeout" (Val.num 300)
    let last_state := cget ctx "last_state" (Val.str "")
    let state_enter_time := cget ctx "state_enter_time" (Val.num 0)
    let current_time := cget ctx "current_time" (Val.num 0)
    if eqStr last_state "sleep" then .ok true
    else if !eqStr last_state "bored" then .ok false
    else
      (subNum current_time state_enter_time).bind fun bored_duration =>
        (geNum bored_duration sleep_timeout).map fun b =>
          if b then true else false

/-! ## Claim theorems -/

/-- C1 (counterexample): with the default state (`speed = 1`,
`last_update = 0`) at `now = 5` the minimum-interval gate fires
(`now - last_update ≥ 1/speed`), yet `effect_disco` leaves `last_update`
untouched — the source assigns no attribute of `state`, so the post-state
equals the input and `last_update` is not set to the firing time. -/
theorem c1_disco_mutation_cex :
    1 / ({} : EffectState).speed ≤ (5 : ℚ) - ({} : EffectState).last_update ∧
    effect_disco_state {} 5 3 = ({} : EffectState) ∧
    (effect_disco_state {} 5 3).last_update = 0 ∧
    (effect_disco_state {} 5 3).last_update ≠ 5 := by
  refine ⟨by norm_num, rfl, rfl, by norm_num [effect_disco_state]⟩

/-- C1 (amended): effect functions mutate nothing at all — `effect_disco`
leaves every field of its `EffectState` input unchanged, including
`last_update`; recording the update time is the caller's responsibility. -/
theorem c1_disco_no_mutation :
    ∀ (s : EffectState) (now : ℚ) (led_count : ℕ),
      effect_disco_state s now led_count = s ∧
      (effect_disco_state s now led_count).last_update = s.last_update :=
  fun _ _ _ => ⟨rfl, rfl⟩

/-- C2 (code bug, evaluation at the failing input): with the dataclass
defaults (`speed = 1`, `min_brightness = 0.2`, `max_brightness = 1`,
`start_time = 0`) and `now = 0.24` (phase 0.24, inside the second-rise
window 0.20–0.25), the code yields brightness `51/50 = 1.02`, strictly
above `max_brightness` — the second rise does not return to exactly
`max_brightness` because source line 104 adds the raw constant `0.5`
instead of `0.5 * (max_brightness - min_brightness)`. -/
theorem c2_heartbeat_overshoot :
    heartbeatBrightness hbDefault 0.24 = 51 / 50 ∧
    effect_heartbeat hbDefault 0.24 = (51 / 50, 51 / 50, 51 / 50) ∧
    hbDefault.max_brightness < heartbeatBrightness hbDefault 0.24 := by
  have hf : Rat.floor ((6 : ℚ) / 25) = 0 := by
    rw [show Rat.floor ((6 : ℚ) / 25) = ⌊(6 : ℚ) / 25⌋ from rfl, Int.floor_eq_iff]
    norm_num
  have hb : heartbeatBrightness hbDefault 0.24 = 51 / 50 := by
    norm_num [heartbeatBrightness, hbDefault, pymod, hf,
      HEARTBEAT_FIRST_PULSE_DURATION, HEARTBEAT_DIP_DURATION,
      HEARTBEAT_SECOND_PULSE_DURATION, HEARTBEAT_FADE_DURATION,
      HEARTBEAT_SECOND_PULSE_INTENSITY]
  refine ⟨hb, ?_, ?_⟩
  · simp only [effect_heartbeat, hb]
    norm_num [hbDefault]
  · rw [hb]
    norm_num [hbDefault]

/-- C3: `effect_pulse` returns `base_color` scaled per channel by
`brightness(now) = min_b + ((sin(2π·speed·(now - start_time)) + 1)/2)·(max_b - min_b)`,
and at `now = start_time` the brightness equals the midpoint
`(min_b + max_b)/2`, not `min_b`. -/
theorem c3_pulse_midpoint :
    ∀ (s : EffectState) (now : ℚ),
      pulseBrightness s now =
        (s.min_brightness : ℝ) +
          ((Real.sin (2 * Real.pi * (s.speed : ℝ) *
              ((now : ℝ) - (s.start_time : ℝ))) + 1) / 2) *
            ((s.max_brightness : ℝ) - (s.min_brightness : ℝ)) ∧
      effect_pulse s now =
        ((s.base_color.1 : ℝ) * pulseBrightness s now,
         (s.base_color.2.1 : ℝ) * pulseBrightness s now,
         (s.base_color.2.2 : ℝ) * pulseBrightness s now) ∧
      pulseBrightness s s.start_time =
        ((s.min_brightness : ℝ) + (s.max_brightness : ℝ)) / 2 := by
  intro s now
  refine ⟨?_, rfl, ?_⟩
  · simp only [pulseBrightness]
    have h : ((now : ℝ) - (s.start_time : ℝ)) * (s.speed : ℝ) * 2 * Real.pi =
        2 * Real.pi * (s.speed : ℝ) * ((now : ℝ) - (s.start_time : ℝ)) := by ring
    rw [h]
  · simp only [pulseBrightness, sub_self, zero_mul, Real.sin_zero]
    ring

/-- C8: for identical inputs, the buffer produced with
`direction = "reverse"` is exactly the element-wise reversal of the buffer
produced with `direction = "standard"` — the gradient computation never
reads `direction`; only the final reversal does. -/
theorem c8_fill_reverse :
    ∀ (s : EffectState) (fill_percent : ℚ) (led_count : ℕ),
      effect_fill { s with direction := "reverse" } fill_percent led_count =
        (effect_fill { s with direction := "standard" } fill_percent
          led_count).reverse := by
  intro s fp n
  have h : ∀ d2, fillColors { s with direction := d2 } fp n = fillColors s fp n :=
    fun _ => rfl
  simp [effect_fill, h]

/-- `_detect_event` never changes `current_event` (it only ever writes
`_bored_start`). -/
theorem detect_event_current (d : StateDetector) (s : PrinterState) (now : ℚ) :
    (StateDetector.detect_event d s now).2.current_event = d.current_event := by
  unfold StateDetector.detect_event
  dsimp only
  split_ifs <;> rfl

/-- `_transition` installs the new event as `current_event`. -/
theorem transition_current {W : Type} (d : StateDetector) (e : PrinterEvent)
    (now : ℚ) (listeners : List (Callback W)) (w : W) :
    (StateDetector.transition d e now listeners w).1.current_event = e := by
  unfold StateDetector.transition
  split_ifs <;> rfl

/-- `_transition` records the old `current_event` as `previous_event`. -/
theorem transition_previous {W : Type} (d : StateDetector) (e : PrinterEvent)
    (now : ℚ) (listeners : List (Callback W)) (w : W) :
    (StateDetector.transition d e now listeners w).1.previous_event =
      d.current_event := by
  unfold StateDetector.transition
  split_ifs <;> rfl

/-- `_transition`'s effect on the outside world is exactly the listener
loop. -/
theorem transition_world {W : Type} (d : StateDetector) (e : PrinterEvent)
    (now : ℚ) (listeners : List (Callback W)) (w : W) :
    (StateDetector.transition d e now listeners w).2 =
      StateDetector.notifyListeners listeners e w := by
  unfold StateDetector.transition
  split_ifs <;> rfl

/-- C5: `update` returns the newly detected event exactly when it differs
from the detector's current event — and then `current_event` becomes that
event — and returns `None` when it equals the current one, leaving
`current_event` unchanged (in both cases the resulting `current_event` is
the detected event). -/
theorem c5_update_signals_change :
    ∀ (W : Type) (d : StateDetector) (s : PrinterState) (now : ℚ)
      (listeners : List (Callback W)) (w : W),
      (StateDetector.update d s now listeners w).2.2 =
        (if (StateDetector.detect_event d s now).1 = d.current_event then none
         else some (StateDetector.detect_event d s now).1) ∧
      (StateDetector.update d s now listeners w).1.current_event =
        (StateDetector.detect_event d s now).1 := by
  intro W d s now listeners w
  have hc := detect_event_current d s now
  by_cases h : (StateDetector.detect_event d s now).1 = d.current_event
  · simp [StateDetector.update, hc, h]
  · simp [StateDetector.update, hc, h, transition_current]

/-- C6: a raising listener is isolated — on a transition whose listener
list contains a callback that raises on every invocation, `current_event`
and `previous_event` are still updated, every callback before and after
the raising one is still invoked (its world effect appears in the result),
and the transition returns normally with the raise swallowed. -/
theorem c6_listener_isolation :
    ∀ (W : Type) (d : StateDetector) (e : PrinterEvent) (now : ℚ)
      (pre post : List (Callback W)) (bad : Callback W) (w : W),
      (∀ w2, (bad e w2).2 = true) →
      (StateDetector.transition d e now (pre ++ bad :: post) w).1.current_event
          = e ∧
      (StateDetector.transition d e now (pre ++ bad :: post) w).1.previous_event
          = d.current_event ∧
      (StateDetector.transition d e now (pre ++ bad :: post) w).2 =
        StateDetector.notifyListeners post e
          (bad e (StateDetector.notifyListeners pre e w)).1 := by
  intro W d e now pre post bad w _
  refine ⟨transition_current d e now _ w, transition_previous d e now _ w, ?_⟩
  rw [transition_world]
  simp [StateDetector.notifyListeners, List.foldl_append]

/-- C6 witness: a concrete transition over the world `ℕ` with a raising
callback in the middle; the callbacks before and after it still run
(`0 ↦ 1 ↦ 2 ↦ 12`). -/
theorem c6_listener_isolation_witness :
    (StateDetector.transition ({} : StateDetector) PrinterEvent.printing 5
        ([(fun _ n => (n + 1, false) : Callback ℕ)] ++
          ((fun _ n => (n * 2, true) : Callback ℕ) ::
            [(fun _ n => (n + 10, false) : Callback ℕ)])) 0).1.current_event
        = PrinterEvent.printing ∧
    (StateDetector.transition ({} : StateDetector) PrinterEvent.printing 5
        ([(fun _ n => (n + 1, false) : Callback ℕ)] ++
          ((fun _ n => (n * 2, true) : Callback ℕ) ::
            [(fun _ n => (n + 10, false) : Callback ℕ)])) 0).1.previous_event
        = ({} : StateDetector).current_event ∧
    (StateDetector.transition ({} : StateDetector) PrinterEvent.printing 5
        ([(fun _ n => (n + 1, false) : Callback ℕ)] ++
          ((fun _ n => (n * 2, true) : Callback ℕ) ::
            [(fun _ n => (n + 10, false) : Callback ℕ)])) 0).2 =
      StateDetector.notifyListeners [(fun _ n => (n + 10, false) : Callback ℕ)]
        PrinterEvent.printing
        ((fun (_ : PrinterEvent) (n : ℕ) => (n * 2, true)) PrinterEvent.printing
          (StateDetector.notifyListeners
            [(fun _ n => (n + 1, false) : Callback ℕ)] PrinterEvent.printing 0)).1 :=
  c6_listener_isolation ℕ {} PrinterEvent.printing 5
    [fun _ n => (n + 1, false)] [fun _ n => (n + 10, false)]
    (fun _ n => (n * 2, true)) 0 (fun _ => rfl)

/-- Inversion for a successful `Except.bind`. -/
theorem except_bind_ok {α β : Type} {x : Except Unit α} {f : α → Except Unit β}
    {b : β} (h : x.bind f = .ok b) : ∃ a, x = .ok a ∧ f a = .ok b := by
  cases x with
  | error e => simp [Except.bind] at h
  | ok a => exact ⟨a, rfl, h⟩

/-- Inversion for a successful `Except.map`. -/
theorem except_map_ok {α β : Type} {x : Except Unit α} {f : α → β} {b : β}
    (h : x.map f = .ok b) : ∃ a, x = .ok a ∧ f a = b := by
  cases x with
  | error e => simp [Except.map] at h
  | ok a =>
    refine ⟨a, rfl, ?_⟩
    simpa [Except.map] using h

/-- A successful `applyWebhooks` only rewrites `klipper_state`. -/
theorem applyWebhooks_shape {s s2 : PrinterState} {st : Status}
    (h : PrinterState.applyWebhooks s st = .ok s2) :
    ∃ a, s2 = { s with klipper_state := a } := by
  unfold PrinterState.applyWebhooks at h
  cases hlk : st.lookup "webhooks" with
  | none =>
    rw [hlk] at h
    exact ⟨s.klipper_state, (Except.ok.inj h).symm⟩
  | some wh =>
    rw [hlk] at h
    obtain ⟨b, -, h⟩ := except_bind_ok h
    cases b with
    | false => exact ⟨s.klipper_state, (Except.ok.inj h).symm⟩
    | true =>
      obtain ⟨v, -, h⟩ := except_bind_ok h
      obtain ⟨x, -, h⟩ := except_map_ok h
      exact ⟨x, h.symm⟩

/-- A successful `applyPrintStats` only rewrites `print_state` and
`filename`. -/
theorem applyPrintStats_shape {s s2 : PrinterState} {st : Status}
    (h : PrinterState.applyPrintStats s st = .ok s2) :
    ∃ a b, s2 = { s with print_state := a, filename := b } := by
  unfold PrinterState.applyPrintStats at h
  cases hlk : st.lookup "print_stats" with
  | none =>
    rw [hlk] at h
    exact ⟨s.print_state, s.filename, (Except.ok.inj h).symm⟩
  | some ps =>
    rw [hlk] at h
    obtain ⟨b1, -, h⟩ := except_bind_ok h
    obtain ⟨s1, hs1, h⟩ := except_bind_ok h
    have hshape1 : ∃ a, s1 = { s with print_state := a } := by
      cases b1 with
      | false => exact ⟨s.print_state, (Except.ok.inj hs1).symm⟩
      | true =>
        obtain ⟨v, -, hs1⟩ := except_bind_ok hs1
        obtain ⟨x, -, hs1⟩ := except_map_ok hs1
        exact ⟨x, hs1.symm⟩
    obtain ⟨a, rfl⟩ := hshape1
    obtain ⟨b2, -, h⟩ := except_bind_ok h
    cases b2 with
    | false => exact ⟨a, s.filename, (Except.ok.inj h).symm⟩
    | true =>
      obtain ⟨v, -, h⟩ := except_bind_ok h
      obtain ⟨x, -, h⟩ := except_map_ok h
      exact ⟨a, x, h.symm⟩

/-- A successful `applyDisplayStatus` only rewrites `progress`. -/
theorem applyDisplayStatus_shape {s s2 : PrinterState} {st : Status}
    (h : PrinterState.applyDisplayStatus s st = .ok s2) :
    ∃ a, s2 = { s with progress := a } := by
  unfold PrinterState.applyDisplayStatus at h
  cases hlk : st.lookup "display_status" with
  | none =>
    rw [hlk] at h
    exact ⟨s.progress, (Except.ok.inj h).symm⟩
  | some ds =>
    rw [hlk] at h
    obtain ⟨b, -, h⟩ := except_bind_ok h
    cases b with
    | false => exact ⟨s.progress, (Except.ok.inj h).symm⟩
    | true =>
      obtain ⟨v, -, h⟩ := except_bind_ok h
      obtain ⟨q, -, h⟩ := except_map_ok h
      exact ⟨q, h.symm⟩

/-- A successful `applyHeaterBed` only rewrites `bed_temp` and
`bed_target`. -/
theorem applyHeaterBed_shape {s s2 : PrinterState} {st : Status}
    (h : PrinterState.applyHeaterBed s st = .ok s2) :
    ∃ a b, s2 = { s with bed_temp := a, bed_target := b } := by
  unfold PrinterState.applyHeaterBed at h
  cases hlk : st.lookup "heater_bed" with
  | none =>
    rw [hlk] at h
    exact ⟨s.bed_temp, s.bed_target, (Except.ok.inj h).symm⟩
  | some hb =>
    rw [hlk] at h
    obtain ⟨b1, -, h⟩ := except_bind_ok h
    obtain ⟨s1, hs1, h⟩ := except_bind_ok h
    have hshape1 : ∃ a, s1 = { s with bed_temp := a } := by
      cases b1 with
      | false => exact ⟨s.bed_temp, (Except.ok.inj hs1).symm⟩
      | true =>
        obtain ⟨v, -, hs1⟩ := except_bind_ok hs1
        obtain ⟨q, -, hs1⟩ := except_map_ok hs1
        exact ⟨q, hs1.symm⟩
    obtain ⟨a, rfl⟩ := hshape1
    obtain ⟨b2, -, h⟩ := except_bind_ok h
    cases b2 with
    | false => exact ⟨a, s.bed_target, (Except.ok.inj h).symm⟩
    | true =>
      obtain ⟨v, -, h⟩ := except_bind_ok h
      obtain ⟨q, -, h⟩ := except_map_ok h
      exact ⟨a, q, h.symm⟩

/-- A successful `applyExtruder` only rewrites `extruder_temp` and
`extruder_target`. -/
theorem applyExtruder_shape {s s2 : PrinterState} {st : Status}
    (h : PrinterState.applyExtruder s st = .ok s2) :
    ∃ a b, s2 = { s with extruder_temp := a, extruder_target := b } := by
  unfold PrinterState.applyExtruder at h
  cases hlk : st.lookup "extruder" with
  | none =>
    rw [hlk] at h
    exact ⟨s.extruder_temp, s.extruder_target, (Except.ok.inj h).symm⟩
  | some ex =>
    rw [hlk] at h
    obtain ⟨b1, -, h⟩ := except_bind_ok h
    obtain ⟨s1, hs1, h⟩ := except_bind_ok h
    have hshape1 : ∃ a, s1 = { s with extruder_temp := a } := by
      cases b1 with
      | false => exact ⟨s.extruder_temp, (Except.ok.inj hs1).symm⟩
      | true =>
        obtain ⟨v, -, hs1⟩ := except_bind_ok hs1
        obtain ⟨q, -, hs1⟩ := except_map_ok hs1
        exact ⟨q, hs1.symm⟩
    obtain ⟨a, rfl⟩ := hshape1
    obtain ⟨b2, -, h⟩ := except_bind_ok h
    cases b2 with
    | false => exact ⟨a, s.extruder_target, (Except.ok.inj h).symm⟩
    | true =>
      obtain ⟨v, -, h⟩ := except_bind_ok h
      obtain ⟨q, -, h⟩ := except_map_ok h
      exact ⟨a, q, h.symm⟩

/-- A successful `applyToolhead` only rewrites the three positions. -/
theorem applyToolhead_shape {s s2 : PrinterState} {st : Status}
    (h : PrinterState.applyToolhead s st = .ok s2) :
    ∃ x y z, s2 = { s with position_x := x, position_y := y,
                           position_z := z } := by
  unfold PrinterState.applyToolhead at h
  cases hlk : st.lookup "toolhead" with
  | none =>
    rw [hlk] at h
    exact ⟨s.position_x, s.position_y, s.position_z, (Except.ok.inj h).symm⟩
  | some th =>
    rw [hlk] at h
    obtain ⟨b, -, h⟩ := except_bind_ok h
    cases b with
    | false =>
      exact ⟨s.position_x, s.position_y, s.position_z, (Except.ok.inj h).symm⟩
    | true =>
      obtain ⟨pos, -, h⟩ := except_bind_ok h
      obtain ⟨n, -, h⟩ := except_bind_ok h
      by_cases h3 : 3 ≤ n
      · rw [if_pos h3] at h
        obtain ⟨v0, -, h⟩ := except_bind_ok h
        obtain ⟨x, -, h⟩ := except_bind_ok h
        obtain ⟨v1, -, h⟩ := except_bind_ok h
        obtain ⟨y, -, h⟩ := except_bind_ok h
        obtain ⟨v2, -, h⟩ := except_bind_ok h
        obtain ⟨z, -, h⟩ := except_map_ok h
        exact ⟨x, y, z, h.symm⟩
      · rw [if_neg h3] at h
        exact ⟨s.position_x, s.position_y, s.position_z, (Except.ok.inj h).symm⟩

/-- A successful `applyIdleTimeout` only rewrites `idle_state`. -/
theorem applyIdleTimeout_shape {s s2 : PrinterState} {st : Status}
    (h : PrinterState.applyIdleTimeout s st = .ok s2) :
    ∃ a, s2 = { s with idle_state := a } := by
  unfold PrinterState.applyIdleTimeout at h
  cases hlk : st.lookup "idle_timeout" with
  | none =>
    rw [hlk] at h
    exact ⟨s.idle_state, (Except.ok.inj h).symm⟩
  | some it =>
    rw [hlk] at h
    obtain ⟨b, -, h⟩ := except_bind_ok h
    cases b with
    | false => exact ⟨s.idle_state, (Except.ok.inj h).symm⟩
    | true =>
      obtain ⟨v, -, h⟩ := except_bind_ok h
      obtain ⟨x, -, h⟩ := except_map_ok h
      exact ⟨x, h.symm⟩

/-- Absent group: `applyWebhooks` is the identity. -/
theorem applyWebhooks_none {s : PrinterState} {st : Status}
    (hlk : st.lookup "webhooks" = none) :
    PrinterState.applyWebhooks s st = .ok s := by
  unfold PrinterState.applyWebhooks
  rw [hlk]

/-- Absent group: `applyPrintStats` is the identity. -/
theorem applyPrintStats_none {s : PrinterState} {st : Status}
    (hlk : st.lookup "print_stats" = none) :
    PrinterState.applyPrintStats s st = .ok s := by
  unfold PrinterState.applyPrintStats
  rw [hlk]

/-- Absent group: `applyDisplayStatus` is the identity. -/
theorem applyDisplayStatus_none {s : PrinterState} {st : Status}
    (hlk : st.lookup "display_status" = none) :
    PrinterState.applyDisplayStatus s st = .ok s := by
  unfold PrinterState.applyDisplayStatus
  rw [hlk]

/-- Absent group: `applyHeaterBed` is the identity. -/
theorem applyHeaterBed_none {s : PrinterState} {st : Status}
    (hlk : st.lookup "heater_bed" = none) :
    PrinterState.applyHeaterBed s st = .ok s := by
  unfold PrinterState.applyHeaterBed
  rw [hlk]

/-- Absent group: `applyExtruder` is the identity. -/
theorem applyExtruder_none {s : PrinterState} {st : Status}
    (hlk : st.lookup "extruder" = none) :
    PrinterState.applyExtruder s st = .ok s := by
  unfold PrinterState.applyExtruder
  rw [hlk]

/-- Absent group: `applyToolhead` is the identity. -/
theorem applyToolhead_none {s : PrinterState} {st : Status}
    (hlk : st.lookup "toolhead" = none) :
    PrinterState.applyToolhead s st = .ok s := by
  unfold PrinterState.applyToolhead
  rw [hlk]

/-- Absent group: `applyIdleTimeout` is the identity. -/
theorem applyIdleTimeout_none {s : PrinterState} {st : Status}
    (hlk : st.lookup "idle_timeout" = none) :
    PrinterState.applyIdleTimeout s st = .ok s := by
  unfold PrinterState.applyIdleTimeout
  rw [hlk]


/-- Sub-key behaviour of `applyHeaterBed` on a present dict group: an
absent sub-key keeps the prior value; a sub-key present as `None` is
defaulted to `0.0` by the `or 0.0` idiom. -/
theorem applyHeaterBed_subkeys {s s2 : PrinterState} {st : Status}
    {hb : List (String × Val)}
    (hlk : st.lookup "heater_bed" = some (Val.dict hb))
    (h : PrinterState.applyHeaterBed s st = .ok s2) :
    (hb.lookup "temperature" = none → s2.bed_temp = s.bed_temp) ∧
    (hb.lookup "target" = none → s2.bed_target = s.bed_target) ∧
    (hb.lookup "temperature" = some Val.null → s2.bed_temp = 0) ∧
    (hb.lookup "target" = some Val.null → s2.bed_target = 0) := by
  unfold PrinterState.applyHeaterBed at h
  rw [hlk] at h
  simp only [containsV, getV, Except.bind] at h
  cases htmp : hb.lookup "temperature" with
  | none =>
    rw [htmp] at h
    simp only [Option.isSome_none, Bool.false_eq_true, if_false,
      Except.bind] at h
    cases htgt : hb.lookup "target" with
    | none =>
      rw [htgt] at h
      simp only [Option.isSome_none, Bool.false_eq_true, if_false] at h
      obtain rfl : s = s2 := Except.ok.inj h
      exact ⟨fun _ => rfl, fun _ => rfl,
        fun hx => Option.noConfusion hx,
        fun hx => Option.noConfusion hx⟩
    | some v =>
      rw [htgt] at h
      simp only [Option.isSome_some, if_true, Option.getD_some,
        Except.bind] at h
      cases hoz : orZero v with
      | error e => rw [hoz] at h; simp [Except.map] at h
      | ok q =>
        rw [hoz] at h
        simp only [Except.map] at h
        obtain rfl := Except.ok.inj h
        refine ⟨fun _ => rfl, fun hx => ?_, fun hx => ?_, fun hx => ?_⟩
        · exact Option.noConfusion hx
        · exact Option.noConfusion hx
        · obtain rfl := Option.some.inj hx
          simp only [orZero] at hoz
          exact (Except.ok.inj hoz).symm
  | some v1 =>
    rw [htmp] at h
    simp only [Option.isSome_some, if_true, Option.getD_some,
      Except.bind] at h
    cases hoz1 : orZero v1 with
    | error e => rw [hoz1] at h; simp [Except.map, Except.bind] at h
    | ok q1 =>
      rw [hoz1] at h
      simp only [Except.map, Except.bind] at h
      cases htgt : hb.lookup "target" with
      | none =>
        rw [htgt] at h
        simp only [Option.isSome_none, Bool.false_eq_true, if_false] at h
        obtain rfl := Except.ok.inj h
        refine ⟨fun hx => ?_, fun _ => rfl, fun hx => ?_, fun hx => ?_⟩
        · exact Option.noConfusion hx
        · obtain rfl := Option.some.inj hx
          simp only [orZero] at hoz1
          exact (Except.ok.inj hoz1).symm
        · exact Option.noConfusion hx
      | some v2 =>
        rw [htgt] at h
        simp only [Option.isSome_some, if_true, Option.getD_some,
          Except.bind] at h
        cases hoz2 : orZero v2 with
        | error e => rw [hoz2] at h; simp [Except.map] at h
        | ok q2 =>
          rw [hoz2] at h
          simp only [Except.map] at h
          obtain rfl := Except.ok.inj h
          refine ⟨fun hx => ?_, fun hx => ?_, fun hx => ?_, fun hx => ?_⟩
          · exact Option.noConfusion hx
          · exact Option.noConfusion hx
          · obtain rfl := Option.some.inj hx
            simp only [orZero] at hoz1
            exact (Except.ok.inj hoz1).symm
          · obtain rfl := Option.some.inj hx
            simp only [orZero] at hoz2
            exact (Except.ok.inj hoz2).symm

/-- Sub-key behaviour of `applyExtruder`: mirror of
`applyHeaterBed_subkeys`. -/
theorem applyExtruder_subkeys {s s2 : PrinterState} {st : Status}
    {ex : List (String × Val)}
    (hlk : st.lookup "extruder" = some (Val.dict ex))
    (h : PrinterState.applyExtruder s st = .ok s2) :
    (ex.lookup "temperature" = none → s2.extruder_temp = s.extruder_temp) ∧
    (ex.lookup "target" = none → s2.extruder_target = s.extruder_target) ∧
    (ex.lookup "temperature" = some Val.null → s2.extruder_temp = 0) ∧
    (ex.lookup "target" = some Val.null → s2.extruder_target = 0) := by
  unfold PrinterState.applyExtruder at h
  rw [hlk] at h
  simp only [containsV, getV, Except.bind] at h
  cases htmp : ex.lookup "temperature" with
  | none =>
    rw [htmp] at h
    simp only [Option.isSome_none, Bool.false_eq_true, if_false,
      Except.bind] at h
    cases htgt : ex.lookup "target" with
    | none =>
      rw [htgt] at h
      simp only [Option.isSome_none, Bool.false_eq_true, if_false] at h
      obtain rfl : s = s2 := Except.ok.inj h
      exact ⟨fun _ => rfl, fun _ => rfl,
        fun hx => Option.noConfusion hx, fun hx => Option.noConfusion hx⟩
    | some v =>
      rw [htgt] at h
      simp only [Option.isSome_some, if_true, Option.getD_some,
        Except.bind] at h
      cases hoz : orZero v with
      | error e => rw [hoz] at h; simp [Except.map] at h
      | ok q =>
        rw [hoz] at h
        simp only [Except.map] at h
        obtain rfl := Except.ok.inj h
        refine ⟨fun _ => rfl, fun hx => ?_, fun hx => ?_, fun hx => ?_⟩
        · exact Option.noConfusion hx
        · exact Option.noConfusion hx
        · obtain rfl := Option.some.inj hx
          simp only [orZero] at hoz
          exact (Except.ok.inj hoz).symm
  | some v1 =>
    rw [htmp] at h
    simp only [Option.isSome_some, if_true, Option.getD_some,
      Except.bind] at h
    cases hoz1 : orZero v1 with
    | error e => rw [hoz1] at h; simp [Except.map, Except.bind] at h
    | ok q1 =>
      rw [hoz1] at h
      simp only [Except.map, Except.bind] at h
      cases htgt : ex.lookup "target" with
      | none =>
        rw [htgt] at h
        simp only [Option.isSome_none, Bool.false_eq_true, if_false] at h
        obtain rfl := Except.ok.inj h
        refine ⟨fun hx => ?_, fun _ => rfl, fun hx => ?_, fun hx => ?_⟩
        · exact Option.noConfusion hx
        · obtain rfl := Option.some.inj hx
          simp only [orZero] at hoz1
          exact (Except.ok.inj hoz1).symm
        · exact Option.noConfusion hx
      | some v2 =>
        rw [htgt] at h
        simp only [Option.isSome_some, if_true, Option.getD_some,
          Except.bind] at h
        cases hoz2 : orZero v2 with
        | error e => rw [hoz2] at h; simp [Except.map] at h
        | ok q2 =>
          rw [hoz2] at h
          simp only [Except.map] at h
          obtain rfl := Except.ok.inj h
          refine ⟨fun hx => ?_, fun hx => ?_, fun hx => ?_, fun hx => ?_⟩
          · exact Option.noConfusion hx
          · exact Option.noConfusion hx
          · obtain rfl := Option.some.inj hx
            simp only [orZero] at hoz1
            exact (Except.ok.inj hoz1).symm
          · obtain rfl := Option.some.inj hx
            simp only [orZero] at hoz2
            exact (Except.ok.inj hoz2).symm

/-- Sub-key behaviour of `applyDisplayStatus`: an absent `progress` keeps
the prior value, a `None` progress becomes `0.0`. -/
theorem applyDisplayStatus_subkeys {s s2 : PrinterState} {st : Status}
    {ds : List (String × Val)}
    (hlk : st.lookup "display_status" = some (Val.dict ds))
    (h : PrinterState.applyDisplayStatus s st = .ok s2) :
    (ds.lookup "progress" = none → s2.progress = s.progress) ∧
    (ds.lookup "progress" = some Val.null → s2.progress = 0) := by
  unfold PrinterState.applyDisplayStatus at h
  rw [hlk] at h
  simp only [containsV, getV, Except.bind] at h
  cases hpr : ds.lookup "progress" with
  | none =>
    rw [hpr] at h
    simp only [Option.isSome_none, Bool.false_eq_true, if_false] at h
    obtain rfl : s = s2 := Except.ok.inj h
    exact ⟨fun _ => rfl, fun hx => Option.noConfusion hx⟩
  | some v =>
    rw [hpr] at h
    simp only [Option.isSome_some, if_true, Option.getD_some,
      Except.bind] at h
    cases hoz : orZero v with
    | error e => rw [hoz] at h; simp [Except.map] at h
    | ok q =>
      rw [hoz] at h
      simp only [Except.map] at h
      obtain rfl := Except.ok.inj h
      refine ⟨fun hx => ?_, fun hx => ?_⟩
      · exact Option.noConfusion hx
      · obtain rfl := Option.some.inj hx
        simp only [orZero] at hoz
        exact (Except.ok.inj hoz).symm

/-- Sub-key behaviour of `applyWebhooks`: an absent `state` sub-key leaves
the state untouched. -/
theorem applyWebhooks_state_none {s s2 : PrinterState} {st : Status}
    {wh : List (String × Val)}
    (hlk : st.lookup "webhooks" = some (Val.dict wh))
    (hkey : wh.lookup "state" = none)
    (h : PrinterState.applyWebhooks s st = .ok s2) : s2 = s := by
  unfold PrinterState.applyWebhooks at h
  rw [hlk] at h
  simp only [containsV, Except.bind, hkey, Option.isSome_none,
    Bool.false_eq_true, if_false] at h
  exact (Except.ok.inj h).symm

/-- Sub-key behaviour of `applyIdleTimeout`: an absent `state` sub-key
leaves the state untouched. -/
theorem applyIdleTimeout_state_none {s s2 : PrinterState} {st : Status}
    {it : List (String × Val)}
    (hlk : st.lookup "idle_timeout" = some (Val.dict it))
    (hkey : it.lookup "state" = none)
    (h : PrinterState.applyIdleTimeout s st = .ok s2) : s2 = s := by
  unfold PrinterState.applyIdleTimeout at h
  rw [hlk] at h
  simp only [containsV, Except.bind, hkey, Option.isSome_none,
    Bool.false_eq_true, if_false] at h
  exact (Except.ok.inj h).symm

/-- Sub-key behaviour of `applyToolhead`: an absent `position` sub-key
leaves the state untouched. -/
theorem applyToolhead_pos_none {s s2 : PrinterState} {st : Status}
    {th : List (String × Val)}
    (hlk : st.lookup "toolhead" = some (Val.dict th))
    (hkey : th.lookup "position" = none)
    (h : PrinterState.applyToolhead s st = .ok s2) : s2 = s := by
  unfold PrinterState.applyToolhead at h
  rw [hlk] at h
  simp only [containsV, Except.bind, hkey, Option.isSome_none,
    Bool.false_eq_true, if_false] at h
  exact (Except.ok.inj h).symm

/-- Sub-key behaviour of `applyPrintStats`: absent `state` / `filename`
sub-keys keep the prior values. -/
theorem applyPrintStats_subkeys {s s2 : PrinterState} {st : Status}
    {ps : List (String × Val)}
    (hlk : st.lookup "print_stats" = some (Val.dict ps))
    (h : PrinterState.applyPrintStats s st = .ok s2) :
    (ps.lookup "state" = none → s2.print_state = s.print_state) ∧
    (ps.lookup "filename" = none → s2.filename = s.filename) := by
  unfold PrinterState.applyPrintStats at h
  rw [hlk] at h
  simp only [containsV, subscriptV, getV, Except.bind] at h
  cases hst : ps.lookup "state" with
  | none =>
    rw [hst] at h
    simp only [Option.isSome_none, Bool.false_eq_true, if_false,
      Except.bind] at h
    cases hfn : ps.lookup "filename" with
    | none =>
      rw [hfn] at h
      simp only [Option.isSome_none, Bool.false_eq_true, if_false] at h
      obtain rfl : s = s2 := Except.ok.inj h
      exact ⟨fun _ => rfl, fun _ => rfl⟩
    | some v =>
      rw [hfn] at h
      simp only [Option.isSome_some, if_true, Option.getD_some,
        Except.bind] at h
      cases has : asStrE v with
      | error e => rw [has] at h; simp [Except.map] at h
      | ok x =>
        rw [has] at h
        simp only [Except.map] at h
        obtain rfl := Except.ok.inj h
        exact ⟨fun _ => rfl, fun hx => Option.noConfusion hx⟩
  | some v1 =>
    rw [hst] at h
    simp only [Option.isSome_some, if_true, Except.bind] at h
    cases has1 : asStrE v1 with
    | error e => rw [has1] at h; simp [Except.map, Except.bind] at h
    | ok x1 =>
      rw [has1] at h
      simp only [Except.map, Except.bind] at h
      cases hfn : ps.lookup "filename" with
      | none =>
        rw [hfn] at h
        simp only [Option.isSome_none, Bool.false_eq_true, if_false] at h
        obtain rfl := Except.ok.inj h
        exact ⟨fun hx => Option.noConfusion hx, fun _ => rfl⟩
      | some v2 =>
        rw [hfn] at h
        simp only [Option.isSome_some, if_true, Option.getD_some,
          Except.bind] at h
        cases has2 : asStrE v2 with
        | error e => rw [has2] at h; simp [Except.map] at h
        | ok x2 =>
          rw [has2] at h
          simp only [Except.map] at h
          obtain rfl := Except.ok.inj h
          exact ⟨fun hx => Option.noConfusion hx, fun hx => Option.noConfusion hx⟩

/-- Association-list lookup skips a non-matching head entry. -/
theorem lookup_cons_ne {β : Type} {k g : String} {v : β}
    {st : List (String × β)} (hne : k ≠ g) :
    ((g, v) :: st).lookup k = st.lookup k := by
  simp [List.lookup, beq_false_of_ne hne]

theorem applyWebhooks_cons {s : PrinterState} {st : Status} {g : String}
    {v : Val} (hne : g ≠ "webhooks") :
    PrinterState.applyWebhooks s ((g, v) :: st) =
      PrinterState.applyWebhooks s st := by
  unfold PrinterState.applyWebhooks
  rw [lookup_cons_ne (Ne.symm hne)]

theorem applyPrintStats_cons {s : PrinterState} {st : Status} {g : String}
    {v : Val} (hne : g ≠ "print_stats") :
    PrinterState.applyPrintStats s ((g, v) :: st) =
      PrinterState.applyPrintStats s st := by
  unfold PrinterState.applyPrintStats
  rw [lookup_cons_ne (Ne.symm hne)]

theorem applyDisplayStatus_cons {s : PrinterState} {st : Status} {g : String}
    {v : Val} (hne : g ≠ "display_status") :
    PrinterState.applyDisplayStatus s ((g, v) :: st) =
      PrinterState.applyDisplayStatus s st := by
  unfold PrinterState.applyDisplayStatus
  rw [lookup_cons_ne (Ne.symm hne)]

theorem applyHeaterBed_cons {s : PrinterState} {st : Status} {g : String}
    {v : Val} (hne : g ≠ "heater_bed") :
    PrinterState.applyHeaterBed s ((g, v) :: st) =
      PrinterState.applyHeaterBed s st := by
  unfold PrinterState.applyHeaterBed
  rw [lookup_cons_ne (Ne.symm hne)]

theorem applyExtruder_cons {s : PrinterState} {st : Status} {g : String}
    {v : Val} (hne : g ≠ "extruder") :
    PrinterState.applyExtruder s ((g, v) :: st) =
      PrinterState.applyExtruder s st := by
  unfold PrinterState.applyExtruder
  rw [lookup_cons_ne (Ne.symm hne)]

theorem applyToolhead_cons {s : PrinterState} {st : Status} {g : String}
    {v : Val} (hne : g ≠ "toolhead") :
    PrinterState.applyToolhead s ((g, v) :: st) =
      PrinterState.applyToolhead s st := by
  unfold PrinterState.applyToolhead
  rw [lookup_cons_ne (Ne.symm hne)]

theorem applyIdleTimeout_cons {s : PrinterState} {st : Status} {g : String}
    {v : Val} (hne : g ≠ "idle_timeout") :
    PrinterState.applyIdleTimeout s ((g, v) :: st) =
      PrinterState.applyIdleTimeout s st := by
  unfold PrinterState.applyIdleTimeout
  rw [lookup_cons_ne (Ne.symm hne)]

/-- C4 (amended): `update_from_status` is a lenient merge — fields of
absent top-level groups and fields whose sub-key is absent within a
present group keep their prior values, numeric sub-fields present as
`None` become `0.0`, and unknown top-level groups are silently ignored.
(The original claim's "malformed groups never raise" is dropped: a known
group bound to a non-mapping raises, see the counterexample.) -/
theorem c4_update_merge :
    ∀ (s : PrinterState) (st : Status),
      (∀ (g : String) (v : Val),
        g ∉ (["webhooks", "print_stats", "display_status", "heater_bed",
              "extruder", "toolhead", "idle_timeout"] : List String) →
        PrinterState.update_from_status s ((g, v) :: st) =
          PrinterState.update_from_status s st) ∧
      (∀ s2, PrinterState.update_from_status s st = .ok s2 →
        (st.lookup "webhooks" = none → s2.klipper_state = s.klipper_state) ∧
        (st.lookup "print_stats" = none →
          s2.print_state = s.print_state ∧ s2.filename = s.filename) ∧
        (st.lookup "display_status" = none → s2.progress = s.progress) ∧
        (st.lookup "heater_bed" = none →
          s2.bed_temp = s.bed_temp ∧ s2.bed_target = s.bed_target) ∧
        (st.lookup "extruder" = none →
          s2.extruder_temp = s.extruder_temp ∧
            s2.extruder_target = s.extruder_target) ∧
        (st.lookup "toolhead" = none →
          s2.position_x = s.position_x ∧ s2.position_y = s.position_y ∧
            s2.position_z = s.position_z) ∧
        (st.lookup "idle_timeout" = none → s2.idle_state = s.idle_state) ∧
        (∀ wh, st.lookup "webhooks" = some (Val.dict wh) →
          wh.lookup "state" = none → s2.klipper_state = s.klipper_state) ∧
        (∀ ps, st.lookup "print_stats" = some (Val.dict ps) →
          (ps.lookup "state" = none → s2.print_state = s.print_state) ∧
          (ps.lookup "filename" = none → s2.filename = s.filename)) ∧
        (∀ ds, st.lookup "display_status" = some (Val.dict ds) →
          (ds.lookup "progress" = none → s2.progress = s.progress) ∧
          (ds.lookup "progress" = some Val.null → s2.progress = 0)) ∧
        (∀ hb, st.lookup "heater_bed" = some (Val.dict hb) →
          (hb.lookup "temperature" = none → s2.bed_temp = s.bed_temp) ∧
          (hb.lookup "target" = none → s2.bed_target = s.bed_target) ∧
          (hb.lookup "temperature" = some Val.null → s2.bed_temp = 0) ∧
          (hb.lookup "target" = some Val.null → s2.bed_target = 0)) ∧
        (∀ ex, st.lookup "extruder" = some (Val.dict ex) →
          (ex.lookup "temperature" = none →
            s2.extruder_temp = s.extruder_temp) ∧
          (ex.lookup "target" = none →
            s2.extruder_target = s.extruder_target) ∧
          (ex.lookup "temperature" = some Val.null → s2.extruder_temp = 0) ∧
          (ex.lookup "target" = some Val.null → s2.extruder_target = 0)) ∧
        (∀ th, st.lookup "toolhead" = some (Val.dict th) →
          th.lookup "position" = none →
          s2.position_x = s.position_x ∧ s2.position_y = s.position_y ∧
            s2.position_z = s.position_z) ∧
        (∀ it, st.lookup "idle_timeout" = some (Val.dict it) →
          it.lookup "state" = none → s2.idle_state = s.idle_state)) := by
  intro s st
  constructor
  · intro g v hg
    simp only [List.mem_cons, List.not_mem_nil, or_false, not_or] at hg
    obtain ⟨h1, h2, h3, h4, h5, h6, h7⟩ := hg
    unfold PrinterState.update_from_status
    rw [applyWebhooks_cons h1]
    simp only [applyPrintStats_cons h2, applyDisplayStatus_cons h3,
      applyHeaterBed_cons h4, applyExtruder_cons h5, applyToolhead_cons h6,
      applyIdleTimeout_cons h7]
  · intro s2 h
    unfold PrinterState.update_from_status at h
    obtain ⟨sA, h1, h⟩ := except_bind_ok h
    obtain ⟨sB, h2, h⟩ := except_bind_ok h
    obtain ⟨sC, h3, h⟩ := except_bind_ok h
    obtain ⟨sD, h4, h⟩ := except_bind_ok h
    obtain ⟨sE, h5, h⟩ := except_bind_ok h
    obtain ⟨sF, h6, h7⟩ := except_bind_ok h
    obtain ⟨a1, rfl⟩ := applyWebhooks_shape h1
    obtain ⟨a2, a3, rfl⟩ := applyPrintStats_shape h2
    obtain ⟨a4, rfl⟩ := applyDisplayStatus_shape h3
    obtain ⟨a5, a6, rfl⟩ := applyHeaterBed_shape h4
    obtain ⟨a7, a8, rfl⟩ := applyExtruder_shape h5
    obtain ⟨a9, a10, a11, rfl⟩ := applyToolhead_shape h6
    obtain ⟨a12, rfl⟩ := applyIdleTimeout_shape h7
    refine ⟨?_, ?_, ?_, ?_, ?_, ?_, ?_, ?_, ?_, ?_, ?_, ?_, ?_, ?_⟩
    · intro hlk
      rw [applyWebhooks_none hlk] at h1
      have hx := congrArg PrinterState.klipper_state (Except.ok.inj h1)
      exact hx.symm
    · intro hlk
      rw [applyPrintStats_none hlk] at h2
      have hx := congrArg PrinterState.print_state (Except.ok.inj h2)
      have hy := congrArg PrinterState.filename (Except.ok.inj h2)
      exact ⟨hx.symm, hy.symm⟩
    · intro hlk
      rw [applyDisplayStatus_none hlk] at h3
      have hx := congrArg PrinterState.progress (Except.ok.inj h3)
      exact hx.symm
    · intro hlk
      rw [applyHeaterBed_none hlk] at h4
      have hx := congrArg PrinterState.bed_temp (Except.ok.inj h4)
      have hy := congrArg PrinterState.bed_target (Except.ok.inj h4)
      exact ⟨hx.symm, hy.symm⟩
    · intro hlk
      rw [applyExtruder_none hlk] at h5
      have hx := congrArg PrinterState.extruder_temp (Except.ok.inj h5)
      have hy := congrArg PrinterState.extruder_target (Except.ok.inj h5)
      exact ⟨hx.symm, hy.symm⟩
    · intro hlk
      rw [applyToolhead_none hlk] at h6
      have hx := congrArg PrinterState.position_x (Except.ok.inj h6)
      have hy := congrArg PrinterState.position_y (Except.ok.inj h6)
      have hz := congrArg PrinterState.position_z (Except.ok.inj h6)
      exact ⟨hx.symm, hy.symm, hz.symm⟩
    · intro hlk
      rw [applyIdleTimeout_none hlk] at h7
      have hx := congrArg PrinterState.idle_state (Except.ok.inj h7)
      exact hx.symm
    · intro wh hlk hkey
      have hid := applyWebhooks_state_none hlk hkey h1
      have hx := congrArg PrinterState.klipper_state hid
      exact hx
    · intro ps hlk
      have hsub := applyPrintStats_subkeys hlk h2
      exact ⟨fun hk => hsub.1 hk, fun hk => hsub.2 hk⟩
    · intro ds hlk
      have hsub := applyDisplayStatus_subkeys hlk h3
      exact ⟨fun hk => hsub.1 hk, fun hk => hsub.2 hk⟩
    · intro hb hlk
      have hsub := applyHeaterBed_subkeys hlk h4
      exact ⟨fun hk => hsub.1 hk, fun hk => hsub.2.1 hk,
        fun hk => hsub.2.2.1 hk, fun hk => hsub.2.2.2 hk⟩
    · intro ex hlk
      have hsub := applyExtruder_subkeys hlk h5
      exact ⟨fun hk => hsub.1 hk, fun hk => hsub.2.1 hk,
        fun hk => hsub.2.2.1 hk, fun hk => hsub.2.2.2 hk⟩
    · intro th hlk hkey
      have hid := applyToolhead_pos_none hlk hkey h6
      have hx := congrArg PrinterState.position_x hid
      have hy := congrArg PrinterState.position_y hid
      have hz := congrArg PrinterState.position_z hid
      exact ⟨hx, hy, hz⟩
    · intro it hlk hkey
      have hid := applyIdleTimeout_state_none hlk hkey h7
      have hx := congrArg PrinterState.idle_state hid
      exact hx

/-- C4 (counterexample): a malformed known group is not silently ignored —
binding `webhooks` to the number `7` makes `update_from_status` raise
(Python: `"state" in 7` is a `TypeError`), refuting "never raises". -/
theorem c4_update_raises_cex :
    PrinterState.update_from_status {} [("webhooks", Val.num 7)] =
      .error () := rfl

/-- C4 witness: concrete instance of the merge theorem — an unknown
`junk` group is ignored, and a `heater_bed.target` delivered as `None`
yields `bed_target = 0`. -/
theorem c4_update_merge_witness :
    (PrinterState.update_from_status {} (("junk", Val.num 3) ::
        [("heater_bed", Val.dict [("target", Val.null)])]) =
      PrinterState.update_from_status {}
        [("heater_bed", Val.dict [("target", Val.null)])]) ∧
    ({} : PrinterState).bed_target = 0 :=
  ⟨(c4_update_merge {} [("heater_bed", Val.dict [("target", Val.null)])]).1
      "junk" (Val.num 3) (by decide),
   (((c4_update_merge {}
        [("heater_bed", Val.dict [("target", Val.null)])]).2 {}
          rfl).2.2.2.2.2.2.2.2.2.2.1 [("target", Val.null)] rfl).2.2.2 rfl⟩

/-- C10: with no heater target set, `at_temp` is vacuously true for every
tolerance, and with `print_state = "printing"` (and the machine not in an
error state, which takes priority) the decision tree enters `printing`
directly rather than `heating` — for any prior detector state. -/
theorem c10_at_temp_vacuous :
    ∀ (d : StateDetector) (s : PrinterState) (now tolerance : ℚ),
      s.bed_target = 0 → s.extruder_target = 0 →
      s.at_temp tolerance = true ∧
      (s.print_state = "printing" →
        ¬(s.klipper_state = "shutdown" ∨ s.klipper_state = "error") →
        (StateDetector.detect_event d s now).1 = PrinterEvent.printing) := by
  intro d s now tol hb he
  have hat : s.at_temp tol = true := by
    simp [PrinterState.at_temp, hb, he]
  refine ⟨hat, ?_⟩
  intro hps hk
  have hih : s.is_heating = false := by
    simp [PrinterState.is_heating, hb, he]
  have hch : s.clearly_heating 10 = false := by
    simp [PrinterState.clearly_heating, hb, he]
  simp [StateDetector.detect_event, hk, hps, hih, hch]

/-- C10 witness: the default printer state with `print_state = "printing"`
(no heater targets) is at temperature and is detected as `printing`. -/
theorem c10_at_temp_vacuous_witness :
    ({ print_state := "printing" } : PrinterState).at_temp 2 = true ∧
    (StateDetector.detect_event {} { print_state := "printing" } 5).1 =
      PrinterEvent.printing :=
  ⟨(c10_at_temp_vacuous {} { print_state := "printing" } 5 2 rfl rfl).1,
   (c10_at_temp_vacuous {} { print_state := "printing" } 5 2 rfl rfl).2 rfl
     (by decide)⟩

/-- The shuffle model returns a permutation of its input (the documented
contract of `random.shuffle`). -/
theorem shuffleGo_perm (stream : ℕ → ℕ) :
    ∀ (n k : ℕ) (l : List ℕ), l.length ≤ n →
      ((shuffleGo stream k l).1).Perm l := by
  intro n
  induction n with
  | zero =>
    intro k l hl
    have hnil : l = [] := List.eq_nil_of_length_eq_zero (Nat.le_zero.mp hl)
    subst hnil
    simp [shuffleGo]
  | succ n ih =>
    intro k l hl
    by_cases hnil : l = []
    · subst hnil; simp [shuffleGo]
    · rw [shuffleGo, dif_neg hnil]
      have hj : stream k % l.length < l.length :=
        Nat.mod_lt _ (List.length_pos.mpr hnil)
      have hlen : (l.eraseIdx (stream k % l.length)).length ≤ n := by
        have := List.length_eraseIdx_add_one hj
        omega
      have hperm := ih (k + 1) (l.eraseIdx (stream k % l.length)) hlen
      have h1 : l.take (stream k % l.length) ++
          l.get ⟨stream k % l.length, hj⟩ ::
            l.drop (stream k % l.length + 1) = l := by
        rw [List.get_eq_getElem, List.getElem_cons_drop, List.take_append_drop]
      have hkey : (l.get ⟨stream k % l.length, hj⟩ ::
          l.eraseIdx (stream k % l.length)).Perm l := by
        rw [List.eraseIdx_eq_take_drop_succ]
        have hmid : (l.get ⟨stream k % l.length, hj⟩ ::
            (l.take (stream k % l.length) ++
              l.drop (stream k % l.length + 1))).Perm
            (l.take (stream k % l.length) ++
              l.get ⟨stream k % l.length, hj⟩ ::
                l.drop (stream k % l.length + 1)) := List.perm_middle.symm
        rwa [h1] at hmid
      exact (hperm.cons _).trans hkey

/-- The disco per-LED loop yields one buffer entry per LED. -/
theorem buildColors_length (stream : ℕ → ℕ) (c : ℚ) (lit : List ℕ) :
    ∀ (is : List ℕ) (k : ℕ), (buildColors stream c lit is k).length =
      is.length := by
  intro is
  induction is with
  | nil => intro k; rfl
  | cons i t iht =>
    intro k
    by_cases h : i ∈ lit <;> simp [buildColors, h, iht]

/-- The lit entries of the disco buffer are exactly the positions that
fall in the lit-index set. -/
theorem buildColors_countP (stream : ℕ → ℕ) (c : ℚ) (lit : List ℕ) :
    ∀ (is : List ℕ) (k : ℕ),
      (buildColors stream c lit is k).countP (fun o => o.isSome) =
        is.countP (fun i => decide (i ∈ lit)) := by
  intro is
  induction is with
  | nil => intro k; rfl
  | cons i t iht =>
    intro k
    by_cases h : i ∈ lit <;>
      simp [buildColors, h, List.countP_cons, iht]

/-- Counting the members of a duplicate-free list `lit ⊆ [0, n)` inside
`List.range n` gives exactly `lit.length`. -/
theorem countP_range_mem {lit : List ℕ} {n : ℕ} (hnd : lit.Nodup)
    (hlt : ∀ x ∈ lit, x < n) :
    (List.range n).countP (fun i => decide (i ∈ lit)) = lit.length := by
  rw [List.countP_eq_length_filter]
  have hperm : ((List.range n).filter (fun i => decide (i ∈ lit))).Perm lit := by
    apply (List.perm_ext_iff_of_nodup ((List.nodup_range n).filter _) hnd).mpr
    intro a
    simp only [List.mem_filter, List.mem_range, decide_eq_true_eq]
    exact ⟨fun hx => hx.2, fun hx => ⟨hlt a hx, hx⟩⟩
  exact hperm.length_eq

/-- C7: with `speed > 0` and the data-model invariant
`min_sparkle ≤ max_sparkle`, `effect_disco` returns `([], false)` whenever
`now - last_update < 1/speed`, and otherwise returns `(buffer, true)`
where the buffer has length `led_count` and its number of lit (non-`none`)
entries lies in `[min(min_sparkle, N), min(max_sparkle, N)]`, every other
entry being the explicit unlit marker `none` — for every seed function,
i.e. for every behaviour of the random module. -/
theorem c7_disco_contract :
    ∀ (seedGen : ℤ → ℕ → ℕ) (s : EffectState) (now : ℚ) (led_count : ℕ),
      0 < s.speed → s.min_sparkle ≤ s.max_sparkle →
      (now - s.last_update < 1 / s.speed →
        effect_disco seedGen s now led_count = ([], false)) ∧
      (¬(now - s.last_update < 1 / s.speed) →
        (effect_disco seedGen s now led_count).2 = true ∧
        (effect_disco seedGen s now led_count).1.length = led_count ∧
        min s.min_sparkle led_count ≤
          (effect_disco seedGen s now led_count).1.countP
            (fun o => o.isSome) ∧
        (effect_disco seedGen s now led_count).1.countP
            (fun o => o.isSome) ≤ min s.max_sparkle led_count) := by
  intro seedGen s now N hsp hms
  constructor
  · intro hlt
    simp only [effect_disco]
    rw [if_pos hlt]
  · intro hge
    have hE : effect_disco seedGen s now N =
        (buildColors (seedGen (pyint (now * 1000000))) s.max_brightness
          ((shuffleGo (seedGen (pyint (now * 1000000))) 1
            (List.range N)).1.take (min s.min_sparkle N +
              seedGen (pyint (now * 1000000)) 0 %
                (min s.max_sparkle N + 1 - min s.min_sparkle N)))
          (List.range N)
          (shuffleGo (seedGen (pyint (now * 1000000))) 1 (List.range N)).2,
          true) := by
      simp only [effect_disco]
      rw [if_neg hge]
    rw [hE]
    have hperm := shuffleGo_perm (seedGen (pyint (now * 1000000))) N 1
      (List.range N) (by rw [List.length_range])
    have hlen_sh : (shuffleGo (seedGen (pyint (now * 1000000))) 1
        (List.range N)).1.length = N := by
      rw [hperm.length_eq, List.length_range]
    have hmod : seedGen (pyint (now * 1000000)) 0 %
          (min s.max_sparkle N + 1 - min s.min_sparkle N) <
        min s.max_sparkle N + 1 - min s.min_sparkle N :=
      Nat.mod_lt _ (by omega)
    have hlit_len : ((shuffleGo (seedGen (pyint (now * 1000000))) 1
        (List.range N)).1.take (min s.min_sparkle N +
          seedGen (pyint (now * 1000000)) 0 %
            (min s.max_sparkle N + 1 - min s.min_sparkle N))).length =
        min s.min_sparkle N + seedGen (pyint (now * 1000000)) 0 %
          (min s.max_sparkle N + 1 - min s.min_sparkle N) := by
      rw [List.length_take, hlen_sh]
      omega
    have hlit_nd : ((shuffleGo (seedGen (pyint (now * 1000000))) 1
        (List.range N)).1.take (min s.min_sparkle N +
          seedGen (pyint (now * 1000000)) 0 %
            (min s.max_sparkle N + 1 - min s.min_sparkle N))).Nodup :=
      ((hperm.nodup_iff).mpr (List.nodup_range N)).sublist
        (List.take_sublist _ _)
    have hlit_lt : ∀ x ∈ (shuffleGo (seedGen (pyint (now * 1000000))) 1
        (List.range N)).1.take (min s.min_sparkle N +
          seedGen (pyint (now * 1000000)) 0 %
            (min s.max_sparkle N + 1 - min s.min_sparkle N)), x < N :=
      fun x hx => List.mem_range.mp
        (hperm.mem_iff.mp (List.mem_of_mem_take hx))
    have hcount := countP_range_mem hlit_nd hlit_lt
    refine ⟨rfl, ?_, ?_, ?_⟩
    · rw [buildColors_length, List.length_range]
    · rw [buildColors_countP, hcount, hlit_len]
      omega
    · rw [buildColors_countP, hcount, hlit_len]
      omega

/-- C7 witness: the dataclass defaults at `now = 5` with 3 LEDs and a
constant-zero entropy source. -/
theorem c7_disco_contract_witness :
    ((5 : ℚ) - ({} : EffectState).last_update < 1 / ({} : EffectState).speed →
      effect_disco (fun _ _ => 0) {} 5 3 = ([], false)) ∧
    (¬((5 : ℚ) - ({} : EffectState).last_update <
        1 / ({} : EffectState).speed) →
      (effect_disco (fun _ _ => 0) {} 5 3).2 = true ∧
      (effect_disco (fun _ _ => 0) {} 5 3).1.length = 3 ∧
      min ({} : EffectState).min_sparkle 3 ≤
        (effect_disco (fun _ _ => 0) {} 5 3).1.countP (fun o => o.isSome) ∧
      (effect_disco (fun _ _ => 0) {} 5 3).1.countP (fun o => o.isSome) ≤
        min ({} : EffectState).max_sparkle 3) :=
  c7_disco_contract (fun _ _ => 0) {} 5 3 (by norm_num) (by decide)

/-- The heater read of the shared guard, on a well-formed status, always
yields a number, and it is positive when the status carries a positive
target for that group. -/
theorem heaterVal_eval {status : Status} {g : String}
    (wf : ∀ v, status.lookup g = some v → ∃ d, v = Val.dict d ∧
      ∀ t, d.lookup "target" = some t → ∃ q, t = Val.num q) :
    ∃ qv : ℚ, getV (cget status g (Val.dict [])) "target" (Val.num 0) =
        .ok (Val.num qv) ∧
      ((∃ d q, status.lookup g = some (Val.dict d) ∧
          d.lookup "target" = some (Val.num q) ∧ 0 < q) → 0 < qv) := by
  cases hlk : status.lookup g with
  | none =>
    refine ⟨0, by simp [cget, getV, hlk], ?_⟩
    rintro ⟨d, q, h1, -, -⟩
    exact Option.noConfusion h1
  | some v =>
    obtain ⟨d, rfl, hwf⟩ := wf v hlk
    cases htg : d.lookup "target" with
    | none =>
      refine ⟨0, by simp [cget, getV, hlk, htg], ?_⟩
      rintro ⟨d2, q, h1, h2, -⟩
      obtain rfl := (Val.dict.inj (Option.some.inj h1)).symm
      rw [htg] at h2
      exact Option.noConfusion h2
    | some t =>
      obtain ⟨q, rfl⟩ := hwf t htg
      refine ⟨q, by simp [cget, getV, hlk, htg], ?_⟩
      rintro ⟨d2, q2, h1, h2, h3⟩
      obtain rfl := (Val.dict.inj (Option.some.inj h1)).symm
      rw [htg] at h2
      obtain rfl := Val.num.inj (Option.some.inj h2)
      exact h3

/-- The string read of the shared guard, on a well-formed status, always
yields a string, which agrees with any string the status carries for that
group. -/
theorem strVal_eval {status : Status} {g : String}
    (wf : ∀ v, status.lookup g = some v → ∃ d, v = Val.dict d ∧
      ∀ t, d.lookup "state" = some t → ∃ x, t = Val.str x) :
    ∃ xv : String, getV (cget status g (Val.dict [])) "state" (Val.str "") =
        .ok (Val.str xv) ∧
      (∀ x d, status.lookup g = some (Val.dict d) →
        d.lookup "state" = some (Val.str x) → xv = x) := by
  cases hlk : status.lookup g with
  | none =>
    refine ⟨"", by simp [cget, getV, hlk], ?_⟩
    intro x d h1 h2
    exact Option.noConfusion h1
  | some v =>
    obtain ⟨d, rfl, hwf⟩ := wf v hlk
    cases hst : d.lookup "state" with
    | none =>
      refine ⟨"", by simp [cget, getV, hlk, hst], ?_⟩
      intro x d2 h1 h2
      obtain rfl := (Val.dict.inj (Option.some.inj h1)).symm
      rw [hst] at h2
      exact Option.noConfusion h2
    | some t =>
      obtain ⟨x0, rfl⟩ := hwf t hst
      refine ⟨x0, by simp [cget, getV, hlk, hst], ?_⟩
      intro x d2 h1 h2
      obtain rfl := (Val.dict.inj (Option.some.inj h1)).symm
      rw [hst] at h2
      exact Val.str.inj (Option.some.inj h2)

/-- On a well-formed status, the shared guard evaluates to `true` whenever
a heater target is positive, the print sub-state lowers to
`printing`/`paused`, or the idle-timeout sub-state lowers to `error`. -/
theorem stateGuard_true {status : Status}
    (wfe : ∀ v, status.lookup "extruder" = some v → ∃ d, v = Val.dict d ∧
      ∀ t, d.lookup "target" = some t → ∃ q, t = Val.num q)
    (wfb : ∀ v, status.lookup "heater_bed" = some v → ∃ d, v = Val.dict d ∧
      ∀ t, d.lookup "target" = some t → ∃ q, t = Val.num q)
    (wfp : ∀ v, status.lookup "print_stats" = some v → ∃ d, v = Val.dict d ∧
      ∀ t, d.lookup "state" = some t → ∃ x, t = Val.str x)
    (wfi : ∀ v, status.lookup "idle_timeout" = some v → ∃ d, v = Val.dict d ∧
      ∀ t, d.lookup "state" = some t → ∃ x, t = Val.str x)
    (hg : (∃ d q, status.lookup "extruder" = some (Val.dict d) ∧
            d.lookup "target" = some (Val.num q) ∧ 0 < q) ∨
          (∃ d q, status.lookup "heater_bed" = some (Val.dict d) ∧
            d.lookup "target" = some (Val.num q) ∧ 0 < q) ∨
          (∃ d x, status.lookup "print_stats" = some (Val.dict d) ∧
            d.lookup "state" = some (Val.str x) ∧
            (x.toLower = "printing" ∨ x.toLower = "paused")) ∨
          (∃ d x, status.lookup "idle_timeout" = some (Val.dict d) ∧
            d.lookup "state" = some (Val.str x) ∧ x.toLower = "error")) :
    stateGuard status = .ok true := by
  obtain ⟨qe, hqe, hqe2⟩ := heaterVal_eval wfe
  obtain ⟨qb, hqb, hqb2⟩ := heaterVal_eval wfb
  obtain ⟨xp, hxp, hxp2⟩ := strVal_eval wfp
  obtain ⟨xi, hxi, hxi2⟩ := strVal_eval wfi
  have hHC : heaterCheck status = .ok (decide (0 < qe) || decide (0 < qb)) := by
    unfold heaterCheck
    rw [hqe]
    simp only [Except.bind, gtZero]
    by_cases h1 : 0 < qe
    · simp [h1]
    · simp [decide_eq_false h1, hqb, gtZero, Except.bind]
  unfold stateGuard
  rw [hHC]
  simp only [Except.bind]
  rcases hg with ⟨d, q, h1, h2, h3⟩ | ⟨d, q, h1, h2, h3⟩ |
    ⟨d, x, h1, h2, h3⟩ | ⟨d, x, h1, h2, h3⟩
  · have hpos : 0 < qe := hqe2 ⟨d, q, h1, h2, h3⟩
    simp [hpos]
  · have hpos : 0 < qb := hqb2 ⟨d, q, h1, h2, h3⟩
    simp [hpos]
  · by_cases hb : (decide (0 < qe) || decide (0 < qb)) = true
    · simp [hb]
    · rw [if_neg hb, hxp]
      obtain rfl := hxp2 x d h1 h2
      simp only [Except.bind, lowerV]
      rw [if_pos h3]
  · by_cases hb : (decide (0 < qe) || decide (0 < qb)) = true
    · simp [hb]
    · rw [if_neg hb, hxp]
      simp only [Except.bind, lowerV]
      by_cases hp : xp.toLower = "printing" ∨ xp.toLower = "paused"
      · rw [if_pos hp]
      · rw [if_neg hp, hxi]
        obtain rfl := hxi2 x d h1 h2
        simp [lowerV, Except.map, h3]

/-- C9: the pluggable detectors share a guard — for every status (with
well-formed heater targets and state strings, as the telemetry contract
provides) and every timing context, if any heater target is positive, or
the print sub-state is `printing`/`paused`, or the idle-timeout sub-state
is `error`, then both `BoredDetector.detect` and `SleepDetector.detect`
return `false`. -/
theorem c9_shared_guard :
    ∀ (status : Status) (context : Option Status),
      (∀ v, status.lookup "extruder" = some v → ∃ d, v = Val.dict d ∧
        ∀ t, d.lookup "target" = some t → ∃ q, t = Val.num q) →
      (∀ v, status.lookup "heater_bed" = some v → ∃ d, v = Val.dict d ∧
        ∀ t, d.lookup "target" = some t → ∃ q, t = Val.num q) →
      (∀ v, status.lookup "print_stats" = some v → ∃ d, v = Val.dict d ∧
        ∀ t, d.lookup "state" = some t → ∃ x, t = Val.str x) →
      (∀ v, status.lookup "idle_timeout" = some v → ∃ d, v = Val.dict d ∧
        ∀ t, d.lookup "state" = some t → ∃ x, t = Val.str x) →
      ((∃ d q, status.lookup "extruder" = some (Val.dict d) ∧
          d.lookup "target" = some (Val.num q) ∧ 0 < q) ∨
       (∃ d q, status.lookup "heater_bed" = some (Val.dict d) ∧
          d.lookup "target" = some (Val.num q) ∧ 0 < q) ∨
       (∃ d x, status.lookup "print_stats" = some (Val.dict d) ∧
          d.lookup "state" = some (Val.str x) ∧
          (x.toLower = "printing" ∨ x.toLower = "paused")) ∨
       (∃ d x, status.lookup "idle_timeout" = some (Val.dict d) ∧
          d.lookup "state" = some (Val.str x) ∧ x.toLower = "error")) →
      BoredDetector_detect status context = .ok false ∧
      SleepDetector_detect status context = .ok false := by
  intro status context wfe wfb wfp wfi hg
  have hsg := stateGuard_true wfe wfb wfp wfi hg
  cases hc : truthyCtx context with
  | false =>
    constructor <;> simp [BoredDetector_detect, SleepDetector_detect, hc]
  | true =>
    constructor <;>
      simp [BoredDetector_detect, SleepDetector_detect, hc, hsg, Except.bind]

/-- C9 witness: a status with a hot extruder target (200°C) and a
non-empty context — both pluggable detectors decline. -/
theorem c9_shared_guard_witness :
    BoredDetector_detect [("extruder", Val.dict [("target", Val.num 200)])]
        (some [("current_time", Val.num 0)]) = .ok false ∧
    SleepDetector_detect [("extruder", Val.dict [("target", Val.num 200)])]
        (some [("current_time", Val.num 0)]) = .ok false :=
  c9_shared_guard [("extruder", Val.dict [("target", Val.num 200)])]
    (some [("current_time", Val.num 0)])
    (by
      intro v hv
      simp only [List.lookup] at hv
      refine ⟨[("target", Val.num 200)], ?_, ?_⟩
      · exact (Option.some.inj hv).symm
      · intro t ht
        simp only [List.lookup] at ht
        exact ⟨200, (Option.some.inj ht).symm⟩)
    (by intro v hv; simp [List.lookup] at hv)
    (by intro v hv; simp [List.lookup] at hv)
    (by intro v hv; simp [List.lookup] at hv)
    (Or.inl ⟨[("target", Val.num 200)], 200, rfl, rfl, by norm_num⟩)
